import Mathlib

/-
  Verification of the particle-state engine of the `CardEffect` class
  (src/src/main.ts).  The engine is shallowly embedded over an arbitrary
  linear ordered field `α` (instantiated at `ℚ` for concrete evaluation):
  JavaScript number arithmetic is idealised as exact field arithmetic,
  except that division by zero — which changes the control flow of the
  wave-gate comparison — is modelled with JavaScript's semantics
  (`d / 0` is `NaN` when `d = 0`, `±Infinity` otherwise, and every
  comparison against `NaN` or against `-Infinity` is false).
-/

namespace PixelCards

/-- An RGB colour, as in the `Color` interface of src/src/main.ts. -/
structure Color where
  r : Int
  g : Int
  b : Int
deriving DecidableEq, Repr

/-- One grid square, as in the `Square` interface of src/src/main.ts. -/
structure Square (α : Type) where
  x : α
  y : α
  opacity : α
  speed : α
  color : Color
  distanceFromCenter : α
deriving DecidableEq, Repr

/-- The numeric configuration fields of `CardEffectOptions`
    (src/src/main.ts); the purely presentational fields
    (`icon`, hover CSS classes) are omitted. -/
structure CardEffectOptions (α : Type) where
  cellSize : α
  gapSize : α
  gridCells : Nat
  squareSize : α
  minPointFadeSpeed : α
  maxPointFadeSpeed : α
  pointFadeSpeedFactor : α
  cardSpeedFactor : α
  fadeSpeedFactor : α
  colors : List Color
deriving DecidableEq, Repr

/-- The mutable instance state of a `CardEffect`:
    `_squares`, `_mouseInCard`, `_opacityTouchFactor`
    (the spec's `intensity`), `_maxPointDistance` and `_fadeSpeed`
    (the spec's `waveFront`). -/
structure EffectState (α : Type) where
  squares : List (Square α)
  mouseInCard : Bool
  opacityTouchFactor : α
  maxPointDistance : α
  fadeSpeed : α
deriving DecidableEq, Repr

/-- A draw call issued to the canvas context: either
    `clearRect(0, 0, w, h)` or a `fillRect` of one square with an
    `rgba` fill style. -/
inductive DrawCall (α : Type) where
  | clear (w h : α)
  | fill (x y w h : α) (c : Color) (alpha : α)
deriving DecidableEq, Repr

variable {α : Type} [LinearOrderedField α]

/-- The canvas side length set in the constructor:
    `gridCells * (cellSize + gapSize) - gapSize`
    (both `width` and `height`, src/src/main.ts lines 71-78). -/
def canvasSide (o : CardEffectOptions α) : α :=
  (o.gridCells : α) * (o.cellSize + o.gapSize) - o.gapSize

/-- The hovered branch of the easing step (src/src/main.ts lines 95-104):
    `if (v < 1) v += f; else v = 1`. -/
def easeUp (f v : α) : α := if v < 1 then v + f else 1

/-- The un-hovered branch of the easing step (src/src/main.ts
    lines 106-115): `if (v > 0) v -= f; else v = 0`. -/
def easeDown (f v : α) : α := if 0 < v then v - f else 0

/-- One easing step for a scalar with per-tick increment `f`, selected by
    the hover flag (src/src/main.ts lines 94-116). -/
def easeStep (hover : Bool) (f v : α) : α :=
  if hover then easeUp f v else easeDown f v

/-- The comparison `d / m > w` as JavaScript evaluates it, including the
    division-by-zero cases: `0 / 0` is `NaN` (every comparison false),
    `d / 0` for `d > 0` is `Infinity` (greater than every finite `w`) and
    for `d < 0` is `-Infinity` (less than every finite `w`). -/
def jsDivGt (d m w : α) : Bool :=
  if m = 0 then decide (0 < d) else decide (w < d / m)

/-- The wave gate (src/src/main.ts lines 121-127): if
    `distanceFromCenter / maxPointDistance > fadeSpeed` and
    `speed > 0`, set `speed = -Math.abs(speed)`. -/
def gateSquare (m w : α) (sq : Square α) : Square α :=
  if jsDivGt sq.distanceFromCenter m w = true ∧ 0 < sq.speed then
    { sq with speed := -|sq.speed| }
  else sq

/-- The opacity integration (src/src/main.ts line 129):
    `opacity += speed * pointFadeSpeedFactor`. -/
def integrateSquare (factor : α) (sq : Square α) : Square α :=
  { sq with opacity := sq.opacity + sq.speed * factor }

/-- The bounce/clamp step (src/src/main.ts lines 131-137): clamp the
    opacity to `1` (resp. `0`) and negate the speed when it overshoots. -/
def bounceSquare (sq : Square α) : Square α :=
  if 1 < sq.opacity then { sq with opacity := 1, speed := -sq.speed }
  else if sq.opacity < 0 then { sq with opacity := 0, speed := -sq.speed }
  else sq

/-- The whole per-square update of one tick: wave gate, then opacity
    integration, then bounce (src/src/main.ts lines 120-137). -/
def stepSquare (m w factor : α) (sq : Square α) : Square α :=
  bounceSquare (integrateSquare factor (gateSquare m w sq))

/-- The `fillRect` call issued by `_drawSquare`
    (src/src/main.ts lines 177-185). -/
def drawSquareCall (o : CardEffectOptions α) (sq : Square α) : DrawCall α :=
  DrawCall.fill sq.x sq.y o.squareSize o.squareSize sq.color sq.opacity

/-- `drawGrid()` (src/src/main.ts lines 85-90): clear the canvas and draw
    every square; the method reads the state but assigns no field, so the
    embedded transition returns the state unchanged together with the
    list of draw calls it issues. -/
def drawGrid (o : CardEffectOptions α) (s : EffectState α) :
    EffectState α × List (DrawCall α) :=
  (s, DrawCall.clear (canvasSide o) (canvasSide o) ::
      s.squares.map (drawSquareCall o))

/-- `animateCardEffect()` (src/src/main.ts lines 92-140): clear the
    canvas, ease `_fadeSpeed` and `_opacityTouchFactor` toward the
    hover-dependent targets, then gate/integrate/bounce and draw every
    square (the gate reads the freshly eased `_fadeSpeed`). -/
def animateCardEffect (o : CardEffectOptions α) (s : EffectState α) :
    EffectState α × List (DrawCall α) :=
  let fs := easeStep s.mouseInCard o.fadeSpeedFactor s.fadeSpeed
  let ot := easeStep s.mouseInCard o.cardSpeedFactor s.opacityTouchFactor
  let sqs := s.squares.map (stepSquare s.maxPointDistance fs o.pointFadeSpeedFactor)
  ({ s with fadeSpeed := fs, opacityTouchFactor := ot, squares := sqs },
   DrawCall.clear (canvasSide o) (canvasSide o) :: sqs.map (drawSquareCall o))

/-- The state after `n` consecutive ticks (`animateCardEffect` calls)
    with no intervening pointer event. -/
def tickIter (o : CardEffectOptions α) (s : EffectState α) : Nat → EffectState α
  | 0 => s
  | n + 1 => (animateCardEffect o (tickIter o s n)).1

/-- The `(n+1)`-st consecutive `drawGrid()` call (state and draw output),
    with no intervening tick. -/
def drawGridIter (o : CardEffectOptions α) (s : EffectState α) :
    Nat → EffectState α × List (DrawCall α)
  | 0 => drawGrid o s
  | n + 1 => drawGrid o (drawGridIter o s n).1

/-- One square as built by `_resetSquaresPoints` (src/src/main.ts
    lines 146-175).  The source stores
    `distanceFromCenter = Math.sqrt(distSq)`; to keep the layout
    computable we store the radicand `distSq` and state square-root
    level facts as `Real.sqrt distSq` in the theorems. -/
structure LayoutSquare (α : Type) where
  x : α
  y : α
  opacity : α
  speed : α
  color : Color
  distSq : α
deriving DecidableEq, Repr

/-- The `x` position of the square in column `col`
    (src/src/main.ts lines 150-155):
    `col * (cellSize + gapSize) + (cellSize - squareSize) / 2`. -/
def squareXPos (o : CardEffectOptions α) (col : Nat) : α :=
  (col : α) * (o.cellSize + o.gapSize) + (o.cellSize - o.squareSize) / 2

/-- The `y` position of the square in row `row`
    (src/src/main.ts lines 152-157). -/
def squareYPos (o : CardEffectOptions α) (row : Nat) : α :=
  (row : α) * (o.cellSize + o.gapSize) + (o.cellSize - o.squareSize) / 2

/-- The radicand of `distanceFromCenter` (src/src/main.ts lines 158-161):
    `(squareX - width/2)^2 + (squareY - height/2)^2`, where the canvas
    width and height both equal `canvasSide o`. -/
def distSqFromCenter (o : CardEffectOptions α) (row col : Nat) : α :=
  (squareXPos o col - canvasSide o / 2) ^ 2 +
    (squareYPos o row - canvasSide o / 2) ^ 2

/-- `_randomSpeed` (src/src/main.ts lines 195-203) applied to one draw
    `r` of `Math.random()`:
    `r * (maxPointFadeSpeed - minPointFadeSpeed + 1) + minPointFadeSpeed`. -/
def randomSpeed (o : CardEffectOptions α) (r : α) : α :=
  r * (o.maxPointFadeSpeed - o.minPointFadeSpeed + 1) + o.minPointFadeSpeed

/-- `_randomColor` (src/src/main.ts lines 205-210) with the index draw
    `Math.floor(Math.random() * colors.length)` abstracted as `k`
    (always `< colors.length` when the list is nonempty; `getD` supplies
    a dummy for the out-of-range case, which cannot occur for in-range
    draws). -/
def randomColorPick (o : CardEffectOptions α) (k : Nat) : Color :=
  o.colors.getD k ⟨0, 0, 0⟩

/-- The square pushed for row `row`, column `col` by
    `_resetSquaresPoints`; the randomness of `Math.random()` is made
    explicit as the draw streams `rndS` (speed draws, in `[0,1)`) and
    `rndC` (colour index draws), indexed by the square's row-major
    index. -/
def mkLayoutSquare (o : CardEffectOptions α) (rndS : Nat → α)
    (rndC : Nat → Nat) (row col : Nat) : LayoutSquare α :=
  { x := squareXPos o col
    y := squareYPos o row
    opacity := 0
    speed := randomSpeed o (rndS (row * o.gridCells + col))
    color := randomColorPick o (rndC (row * o.gridCells + col))
    distSq := distSqFromCenter o row col }

/-- The full square list built by the nested row/column loops of
    `_resetSquaresPoints` (src/src/main.ts lines 148-174), in push
    order: row-major. -/
def mkSquares (o : CardEffectOptions α) (rndS : Nat → α)
    (rndC : Nat → Nat) : List (LayoutSquare α) :=
  (List.range o.gridCells).flatMap fun row =>
    (List.range o.gridCells).map fun col => mkLayoutSquare o rndS rndC row col

/-- The `CardEffect` constructor (src/src/main.ts lines 58-83): the two
    validation checks throw before any square is created; otherwise the
    square list is built.  The two event-listener registrations and the
    canvas handle are presentation plumbing and carry no engine state. -/
def mkCardEffect (o : CardEffectOptions α) (rndS : Nat → α)
    (rndC : Nat → Nat) : Except String (List (LayoutSquare α)) :=
  if o.maxPointFadeSpeed < o.minPointFadeSpeed then
    Except.error "Max speed must be greater than min speed"
  else if o.pointFadeSpeedFactor ≤ 0 then
    Except.error "Factor speed must be greater than 0"
  else
    Except.ok (mkSquares o rndS rndC)

/-- The value of one easing scalar after `n` easing steps with a
    constant hover flag; `tickIter` drives both `fadeSpeed` and
    `opacityTouchFactor` by exactly this recurrence. -/
def easeIter {α : Type} [LinearOrderedField α] (hover : Bool) (f v : α) :
    Nat → α
  | 0 => v
  | n + 1 => easeStep hover f (easeIter hover f v n)

/-- Modelled from the spec: the wave gate with the `normalizedDistance`
    ratio literally treated as `0`, which is the guard §4.1 of the spec
    describes for the `maxDistance = 0` case.  The source itself has no
    such guard; this definition exists to compare the spec's description
    against the code's gate. -/
def specZeroGuardGate {α : Type} [LinearOrderedField α] (w : α)
    (sq : Square α) : Square α :=
  if (0 : α) > w ∧ 0 < sq.speed then { sq with speed := -|sq.speed| }
  else sq

/-- A shared concrete colour for witness states. -/
def cWhite : Color := ⟨255, 255, 255⟩

/-- A shared concrete square for witness states. -/
def sqEx : Square ℚ :=
  { x := 0, y := 0, opacity := 1/2, speed := 1, color := cWhite,
    distanceFromCenter := 1 }

/-- A shared concrete configuration for witness states. -/
def optsEx : CardEffectOptions ℚ :=
  { cellSize := 10, gapSize := 0, gridCells := 2, squareSize := 10,
    minPointFadeSpeed := 1, maxPointFadeSpeed := 2,
    pointFadeSpeedFactor := 1/100, cardSpeedFactor := 3/4,
    fadeSpeedFactor := 3/4, colors := [cWhite] }

/-- A shared concrete effect state for witness states. -/
def stateEx : EffectState ℚ :=
  { squares := [sqEx], mouseInCard := true, opacityTouchFactor := 1/2,
    maxPointDistance := 1, fadeSpeed := 1/2 }

/-- A concrete square sitting exactly at the surface center
    (`distanceFromCenter = 0`), fading in. -/
def sqZero : Square ℚ :=
  { x := 0, y := 0, opacity := 0, speed := 1, color := cWhite,
    distanceFromCenter := 0 }

/-- A concrete hovered state with both easing scalars at their rest
    value `0`. -/
def stateUp : EffectState ℚ :=
  { squares := [], mouseInCard := true, opacityTouchFactor := 0,
    maxPointDistance := 0, fadeSpeed := 0 }

/-- A concrete un-hovered state with both easing scalars at their full
    value `1`. -/
def stateDn : EffectState ℚ :=
  { squares := [], mouseInCard := false, opacityTouchFactor := 1,
    maxPointDistance := 0, fadeSpeed := 1 }

section Lemmas

variable {α : Type} [LinearOrderedField α]

lemma jsDivGt_of_ne {m : α} (d w : α) (hm : m ≠ 0) :
    jsDivGt d m w = true ↔ w < d / m := by
  simp [jsDivGt, hm]

lemma gateSquare_speed_eq (m w : α) (sq : Square α)
    (h : jsDivGt sq.distanceFromCenter m w = true ∧ 0 < sq.speed) :
    (gateSquare m w sq).speed = -|sq.speed| := by
  simp [gateSquare, if_pos h]

lemma gateSquare_speed_nonpos (m w : α) (sq : Square α)
    (h : jsDivGt sq.distanceFromCenter m w = true) :
    (gateSquare m w sq).speed ≤ 0 := by
  by_cases hs : 0 < sq.speed
  · rw [gateSquare_speed_eq m w sq ⟨h, hs⟩]
    exact neg_nonpos.mpr (abs_nonneg _)
  · simp only [gateSquare]
    rw [if_neg (by tauto)]
    exact le_of_not_lt hs

lemma gateSquare_parts (m w : α) (sq : Square α) :
    (gateSquare m w sq).x = sq.x ∧ (gateSquare m w sq).y = sq.y ∧
      (gateSquare m w sq).opacity = sq.opacity ∧
      (gateSquare m w sq).color = sq.color ∧
      (gateSquare m w sq).distanceFromCenter = sq.distanceFromCenter ∧
      |(gateSquare m w sq).speed| = |sq.speed| := by
  simp only [gateSquare]
  split <;> simp [abs_abs]

lemma integrateSquare_parts (f : α) (sq : Square α) :
    (integrateSquare f sq).x = sq.x ∧ (integrateSquare f sq).y = sq.y ∧
      (integrateSquare f sq).color = sq.color ∧
      (integrateSquare f sq).distanceFromCenter = sq.distanceFromCenter ∧
      (integrateSquare f sq).speed = sq.speed ∧
      (integrateSquare f sq).opacity = sq.opacity + sq.speed * f := by
  simp [integrateSquare]

lemma bounceSquare_parts (sq : Square α) :
    (bounceSquare sq).x = sq.x ∧ (bounceSquare sq).y = sq.y ∧
      (bounceSquare sq).color = sq.color ∧
      (bounceSquare sq).distanceFromCenter = sq.distanceFromCenter ∧
      |(bounceSquare sq).speed| = |sq.speed| := by
  simp only [bounceSquare]
  split
  · simp [abs_neg]
  · split <;> simp [abs_neg]

lemma stepSquare_parts (m w f : α) (sq : Square α) :
    (stepSquare m w f sq).x = sq.x ∧ (stepSquare m w f sq).y = sq.y ∧
      (stepSquare m w f sq).color = sq.color ∧
      (stepSquare m w f sq).distanceFromCenter = sq.distanceFromCenter ∧
      |(stepSquare m w f sq).speed| = |sq.speed| := by
  obtain ⟨g1, g2, _, g4, g5, g6⟩ := gateSquare_parts m w sq
  obtain ⟨i1, i2, i3, i4, i5, _⟩ :=
    integrateSquare_parts f (gateSquare m w sq)
  obtain ⟨b1, b2, b3, b4, b5⟩ :=
    bounceSquare_parts (integrateSquare f (gateSquare m w sq))
  refine ⟨?_, ?_, ?_, ?_, ?_⟩
  · rw [stepSquare, b1, i1, g1]
  · rw [stepSquare, b2, i2, g2]
  · rw [stepSquare, b3, i3, g4]
  · rw [stepSquare, b4, i4, g5]
  · rw [stepSquare, b5, i5, g6]

lemma bounceSquare_opacity_bounds (sq : Square α) :
    0 ≤ (bounceSquare sq).opacity ∧ (bounceSquare sq).opacity ≤ 1 := by
  by_cases h1 : 1 < sq.opacity
  · simp [bounceSquare, h1]
  · by_cases h0 : sq.opacity < 0
    · simp [bounceSquare, h1, h0]
    · simpa [bounceSquare, h1, h0] using ⟨le_of_not_lt h0, le_of_not_lt h1⟩

lemma stepSquare_opacity_bounds (m w f : α) (sq : Square α) :
    0 ≤ (stepSquare m w f sq).opacity ∧ (stepSquare m w f sq).opacity ≤ 1 :=
  bounceSquare_opacity_bounds _

lemma bounceSquare_opacity_le (sq : Square α) (b : α) (h0 : 0 ≤ b)
    (h : sq.opacity ≤ b) (hb : b ≤ 1) : (bounceSquare sq).opacity ≤ b := by
  have h1 : ¬1 < sq.opacity := not_lt.mpr (le_trans h hb)
  by_cases hneg : sq.opacity < 0
  · simpa [bounceSquare, h1, hneg] using h0
  · simpa [bounceSquare, h1, hneg] using h

lemma tickIter_mouseInCard (o : CardEffectOptions α) (s : EffectState α) :
    ∀ n, (tickIter o s n).mouseInCard = s.mouseInCard := by
  intro n
  induction n with
  | zero => rfl
  | succ k ih => simpa [tickIter, animateCardEffect] using ih

lemma tickIter_fadeSpeed (o : CardEffectOptions α) (s : EffectState α) :
    ∀ n, (tickIter o s n).fadeSpeed =
      easeIter s.mouseInCard o.fadeSpeedFactor s.fadeSpeed n := by
  intro n
  induction n with
  | zero => rfl
  | succ k ih =>
    simp only [tickIter, animateCardEffect, easeIter]
    rw [tickIter_mouseInCard, ih]

lemma tickIter_opacityTouchFactor (o : CardEffectOptions α)
    (s : EffectState α) :
    ∀ n, (tickIter o s n).opacityTouchFactor =
      easeIter s.mouseInCard o.cardSpeedFactor s.opacityTouchFactor n := by
  intro n
  induction n with
  | zero => rfl
  | succ k ih =>
    simp only [tickIter, animateCardEffect, easeIter]
    rw [tickIter_mouseInCard, ih]

lemma easeStep_bounds {f : α} (hover : Bool) (v : α) (hf : 0 < f)
    (h0 : -f < v) (h1 : v < 1 + f) :
    -f < easeStep hover f v ∧ easeStep hover f v < 1 + f := by
  cases hover with
  | true =>
    by_cases hv : v < 1
    · simp only [easeStep, easeUp, if_pos hv, if_true]
      constructor <;> linarith
    · simp only [easeStep, easeUp, if_neg hv, if_true]
      constructor <;> linarith
  | false =>
    by_cases hv : 0 < v
    · simp only [easeStep, easeDown, if_pos hv, Bool.false_eq_true,
        if_false]
      constructor <;> linarith
    · simp only [easeStep, easeDown, if_neg hv, Bool.false_eq_true,
        if_false]
      constructor <;> linarith

lemma easeUp_min_mono {f : α} (v : α) (hf : 0 < f) :
    min 1 v ≤ min 1 (easeUp f v) := by
  by_cases hv : v < 1
  · rw [min_eq_right hv.le, easeUp, if_pos hv]
    exact le_min hv.le (by linarith)
  · rw [easeUp, if_neg hv, min_self]
    exact min_le_left _ _

lemma easeDown_max_mono {f : α} (v : α) (hf : 0 < f) :
    max 0 (easeDown f v) ≤ max 0 v := by
  by_cases hv : 0 < v
  · rw [easeDown, if_pos hv]
    exact max_le_max (le_refl 0) (by linarith)
  · rw [easeDown, if_neg hv, max_self]
    exact le_max_left _ _

lemma easeIter_bounds {f : α} (hover : Bool) (v : α) (hf : 0 < f)
    (h0 : -f < v) (h1 : v < 1 + f) :
    ∀ n, -f < easeIter hover f v n ∧ easeIter hover f v n < 1 + f := by
  intro n
  induction n with
  | zero => exact ⟨h0, h1⟩
  | succ k ih => exact easeStep_bounds hover _ hf ih.1 ih.2

lemma easeIter_up_ge {f : α} (hf : 0 < f) :
    ∀ n : Nat, min 1 ((n : α) * f) ≤ easeIter true f 0 n := by
  intro n
  induction n with
  | zero => simpa [easeIter] using min_le_right (1 : α) 0
  | succ k ih =>
    simp only [easeIter, easeStep, if_true]
    by_cases hv : easeIter true f 0 k < 1
    · rw [easeUp, if_pos hv]
      have hlt : min 1 ((k : α) * f) < 1 := lt_of_le_of_lt ih hv
      have hk : (k : α) * f < 1 := by
        rcases le_total 1 ((k : α) * f) with h | h
        · rw [min_eq_left h] at hlt
          linarith
        · rwa [min_eq_right h] at hlt
      have ih' : (k : α) * f ≤ easeIter true f 0 k := by
        rwa [min_eq_right hk.le] at ih
      calc min 1 ((((k : Nat) + 1 : Nat) : α) * f) ≤
            (((k : Nat) + 1 : Nat) : α) * f := min_le_right _ _
        _ = (k : α) * f + f := by push_cast; ring
        _ ≤ easeIter true f 0 k + f := add_le_add_right ih' f
    · rw [easeUp, if_neg hv]
      exact min_le_left _ _

lemma easeIter_down_le {f : α} (hf : 0 < f) :
    ∀ n : Nat, easeIter false f 1 n ≤ max 0 (1 - (n : α) * f) := by
  intro n
  induction n with
  | zero => simpa [easeIter] using le_max_right (0 : α) 1
  | succ k ih =>
    simp only [easeIter, easeStep, cond_false]
    have hks : (((k : Nat) + 1 : Nat) : α) * f = (k : α) * f + f := by
      push_cast
      ring
    rw [hks]
    by_cases hv : 0 < easeIter false f 1 k
    · rw [easeDown, if_pos hv]
      rcases le_total 0 (1 - (k : α) * f) with h | h
      · have : easeIter false f 1 k ≤ 1 - (k : α) * f := by
          rw [max_eq_right h] at ih
          exact ih
        calc easeIter false f 1 k - f ≤ 1 - (k : α) * f - f := by linarith
          _ = 1 - ((k : α) * f + f) := by ring
          _ ≤ max 0 (1 - ((k : α) * f + f)) := le_max_right _ _
      · have : easeIter false f 1 k ≤ 0 := by
          rw [max_eq_left (by linarith)] at ih
          exact ih
        linarith
    · rw [easeDown, if_neg hv]
      exact le_max_left _ _

lemma easeUp_of_one_le {f v : α} (h : 1 ≤ v) : easeUp f v = 1 :=
  if_neg (not_lt.mpr h)

lemma easeDown_of_nonpos {f v : α} (h : v ≤ 0) : easeDown f v = 0 :=
  if_neg (not_lt.mpr h)

lemma range_flatMap_length {β : Type} (m n : Nat) (f : Nat → Nat → β) :
    ((List.range m).flatMap fun i => (List.range n).map (f i)).length =
      m * n := by
  induction m with
  | zero => simp
  | succ k ih =>
    rw [List.range_succ, List.flatMap_append, List.length_append, ih]
    simp [Nat.succ_mul]

lemma range_flatMap_getElem {β : Type} (m n r c : Nat) (f : Nat → Nat → β)
    (hr : r < m) (hc : c < n) :
    ((List.range m).flatMap fun i => (List.range n).map (f i))[r * n + c]? =
      some (f r c) := by
  induction m with
  | zero => exact absurd hr (Nat.not_lt_zero r)
  | succ k ih =>
    rw [List.range_succ, List.flatMap_append]
    rcases Nat.lt_succ_iff_lt_or_eq.mp hr with h | h
    · rw [List.getElem?_append_left]
      · exact ih h
      · rw [range_flatMap_length]
        calc r * n + c < r * n + n := by omega
          _ = (r + 1) * n := by rw [Nat.succ_mul]
          _ ≤ k * n := Nat.mul_le_mul_right n h
    · subst h
      rw [List.getElem?_append_right]
      · rw [range_flatMap_length, Nat.add_sub_cancel_left]
        simp [List.getElem?_map, List.getElem?_range hc]
      · rw [range_flatMap_length]
        omega

lemma mkSquares_length (o : CardEffectOptions α) (rndS : Nat → α)
    (rndC : Nat → Nat) :
    (mkSquares o rndS rndC).length = o.gridCells * o.gridCells := by
  rw [mkSquares]
  exact range_flatMap_length o.gridCells o.gridCells _

lemma ceil_mul_self_ge {f : ℚ} (hf : 0 < f) :
    1 ≤ ((⌈1 / f⌉₊ : Nat) : ℚ) * f := by
  have h1 : (1 : ℚ) / f ≤ ((⌈1 / f⌉₊ : Nat) : ℚ) := Nat.le_ceil _
  calc (1 : ℚ) = (1 / f) * f := by field_simp
    _ ≤ ((⌈1 / f⌉₊ : Nat) : ℚ) * f :=
        mul_le_mul_of_nonneg_right h1 hf.le

lemma easeIter_up_saturates {f : ℚ} (hf : 0 < f) :
    1 ≤ easeIter true f 0 ⌈1 / f⌉₊ ∧
      easeIter true f 0 (⌈1 / f⌉₊ + 1) = 1 := by
  have h1 : 1 ≤ easeIter true f 0 ⌈1 / f⌉₊ := by
    refine le_trans ?_ (easeIter_up_ge hf ⌈1 / f⌉₊)
    rw [min_eq_left (ceil_mul_self_ge hf)]
  refine ⟨h1, ?_⟩
  simp only [easeIter, easeStep, if_true]
  exact easeUp_of_one_le h1

lemma easeIter_down_saturates {f : ℚ} (hf : 0 < f) :
    easeIter false f 1 ⌈1 / f⌉₊ ≤ 0 ∧
      easeIter false f 1 (⌈1 / f⌉₊ + 1) = 0 := by
  have h1 : easeIter false f 1 ⌈1 / f⌉₊ ≤ 0 := by
    refine le_trans (easeIter_down_le hf ⌈1 / f⌉₊) ?_
    rw [max_eq_left (by linarith [ceil_mul_self_ge hf])]
  refine ⟨h1, ?_⟩
  simp only [easeIter, easeStep, Bool.false_eq_true, if_false]
  exact easeDown_of_nonpos h1

end Lemmas

section Claims

variable {α : Type} [LinearOrderedField α]

/-- Claim C1: on every tick, for every particle, if the code's
    comparison `distanceFromCenter / maxPointDistance > fadeSpeed` holds
    and the speed is positive, the wave gate sets the speed to the
    negation of its absolute value; consequently, immediately after the
    wave-gate step, every particle whose normalized distance exceeds the
    wave front has non-positive speed. -/
theorem wave_gate_forces_nonpositive_speed (m w : α) (sq : Square α) :
    (jsDivGt sq.distanceFromCenter m w = true ∧ 0 < sq.speed →
      (gateSquare m w sq).speed = -|sq.speed|) ∧
    (jsDivGt sq.distanceFromCenter m w = true →
      (gateSquare m w sq).speed ≤ 0) ∧
    (0 < m → w < sq.distanceFromCenter / m →
      (gateSquare m w sq).speed ≤ 0) :=
  ⟨gateSquare_speed_eq m w sq, gateSquare_speed_nonpos m w sq,
   fun hm hd => gateSquare_speed_nonpos m w sq
     ((jsDivGt_of_ne _ _ (ne_of_gt hm)).mpr hd)⟩

/-- Witness for C1 at a concrete particle: distance ratio 1 exceeds the
    wave front 1/2 and the speed 1 is positive, so the gate flips it. -/
theorem wave_gate_forces_nonpositive_speed_witness :
    (gateSquare (1 : ℚ) (1/2) sqEx).speed = -|sqEx.speed| ∧
      (gateSquare (1 : ℚ) (1/2) sqEx).speed ≤ 0 :=
  ⟨(wave_gate_forces_nonpositive_speed 1 (1/2) sqEx).1
      (by norm_num [jsDivGt, sqEx]),
   (wave_gate_forces_nonpositive_speed 1 (1/2) sqEx).2.2
      (by norm_num) (by norm_num [sqEx])⟩

/-- Claim C2: if every particle's opacity starts in `[0, 1]`, then after
    every tick (opacity integration followed by the bounce/clamp step)
    every particle's opacity is again in `[0, 1]`, for every
    configuration and every speed magnitude. -/
theorem opacity_invariant_after_ticks (o : CardEffectOptions α)
    (s : EffectState α)
    (h : ∀ sq ∈ s.squares, 0 ≤ sq.opacity ∧ sq.opacity ≤ 1) :
    ∀ n : Nat, ∀ sq ∈ (tickIter o s n).squares,
      0 ≤ sq.opacity ∧ sq.opacity ≤ 1 := by
  intro n
  induction n with
  | zero => exact h
  | succ k _ =>
    intro sq hsq
    simp only [tickIter, animateCardEffect, List.mem_map] at hsq
    obtain ⟨sq₀, _, rfl⟩ := hsq
    exact stepSquare_opacity_bounds _ _ _ sq₀

/-- Witness for C2 at a concrete state whose single particle starts with
    opacity 1/2, hence inside `[0, 1]`. -/
theorem opacity_invariant_after_ticks_witness :
    0 ≤ sqEx.opacity ∧ sqEx.opacity ≤ 1 :=
  opacity_invariant_after_ticks optsEx stateEx
    (by norm_num [stateEx, sqEx]) 0 sqEx (by simp [tickIter, stateEx])

/-- Claim C3 counterexample: with `fadeSpeedFactor = 3/4` (positive) and
    `waveFront` starting at `1/2` (inside `[0, 1]`) under sustained
    hover, one tick puts `waveFront` at `5/4`, outside `[0, 1]`, and the
    next tick decreases it back to `1`, refuting both the `[0, 1]`
    bound and the raw monotonicity of the claim. -/
theorem easing_unit_interval_cex :
    (0 < optsEx.fadeSpeedFactor ∧ 0 < optsEx.cardSpeedFactor ∧
      stateEx.mouseInCard = true ∧
      0 ≤ stateEx.fadeSpeed ∧ stateEx.fadeSpeed ≤ 1) ∧
    (tickIter optsEx stateEx 1).fadeSpeed = 5/4 ∧
    ¬(tickIter optsEx stateEx 1).fadeSpeed ≤ 1 ∧
    (tickIter optsEx stateEx 2).fadeSpeed <
      (tickIter optsEx stateEx 1).fadeSpeed := by
  norm_num [tickIter, animateCardEffect, easeStep, easeUp, optsEx,
    stateEx]

/-- Claim C3 as amended: with positive factors and both scalars starting
    in `[0, 1]`, across consecutive ticks each scalar stays within the
    open interval `(-factor, 1 + factor)` (not `[0, 1]`: a single tick
    may overshoot by less than one factor before the next tick clamps
    it), and the clamped values `min 1 _` are non-decreasing while
    hovering and the clamped values `max 0 _` are non-increasing while
    not hovering. -/
theorem easing_bounds_and_clamped_monotonicity (o : CardEffectOptions α)
    (s : EffectState α) (hf : 0 < o.fadeSpeedFactor)
    (hc : 0 < o.cardSpeedFactor)
    (hw0 : 0 ≤ s.fadeSpeed) (hw1 : s.fadeSpeed ≤ 1)
    (hi0 : 0 ≤ s.opacityTouchFactor) (hi1 : s.opacityTouchFactor ≤ 1) :
    ∀ n : Nat,
      (-o.fadeSpeedFactor < (tickIter o s n).fadeSpeed ∧
        (tickIter o s n).fadeSpeed < 1 + o.fadeSpeedFactor) ∧
      (-o.cardSpeedFactor < (tickIter o s n).opacityTouchFactor ∧
        (tickIter o s n).opacityTouchFactor < 1 + o.cardSpeedFactor) ∧
      (s.mouseInCard = true →
        min 1 ((tickIter o s n).fadeSpeed) ≤
          min 1 ((tickIter o s (n + 1)).fadeSpeed) ∧
        min 1 ((tickIter o s n).opacityTouchFactor) ≤
          min 1 ((tickIter o s (n + 1)).opacityTouchFactor)) ∧
      (s.mouseInCard = false →
        max 0 ((tickIter o s (n + 1)).fadeSpeed) ≤
          max 0 ((tickIter o s n).fadeSpeed) ∧
        max 0 ((tickIter o s (n + 1)).opacityTouchFactor) ≤
          max 0 ((tickIter o s n).opacityTouchFactor)) := by
  intro n
  refine ⟨?_, ?_, ?_, ?_⟩
  · rw [tickIter_fadeSpeed]
    exact easeIter_bounds _ _ hf (by linarith) (by linarith) n
  · rw [tickIter_opacityTouchFactor]
    exact easeIter_bounds _ _ hc (by linarith) (by linarith) n
  · intro hm
    constructor
    · rw [tickIter_fadeSpeed, tickIter_fadeSpeed, hm]
      simp only [easeIter, easeStep, if_true]
      exact easeUp_min_mono _ hf
    · rw [tickIter_opacityTouchFactor, tickIter_opacityTouchFactor, hm]
      simp only [easeIter, easeStep, if_true]
      exact easeUp_min_mono _ hc
  · intro hm
    constructor
    · rw [tickIter_fadeSpeed, tickIter_fadeSpeed, hm]
      simp only [easeIter, easeStep, Bool.false_eq_true, if_false]
      exact easeDown_max_mono _ hf
    · rw [tickIter_opacityTouchFactor, tickIter_opacityTouchFactor, hm]
      simp only [easeIter, easeStep, Bool.false_eq_true, if_false]
      exact easeDown_max_mono _ hc

/-- Witness for the amended C3 at the concrete hovered state with both
    scalars at `1/2` and both factors `3/4`, instantiated at the first
    tick. -/
theorem easing_bounds_and_clamped_monotonicity_witness :
    (-optsEx.fadeSpeedFactor < (tickIter optsEx stateEx 0).fadeSpeed ∧
      (tickIter optsEx stateEx 0).fadeSpeed < 1 + optsEx.fadeSpeedFactor) ∧
    (-optsEx.cardSpeedFactor <
        (tickIter optsEx stateEx 0).opacityTouchFactor ∧
      (tickIter optsEx stateEx 0).opacityTouchFactor <
        1 + optsEx.cardSpeedFactor) ∧
    (stateEx.mouseInCard = true →
      min 1 ((tickIter optsEx stateEx 0).fadeSpeed) ≤
        min 1 ((tickIter optsEx stateEx (0 + 1)).fadeSpeed) ∧
      min 1 ((tickIter optsEx stateEx 0).opacityTouchFactor) ≤
        min 1 ((tickIter optsEx stateEx (0 + 1)).opacityTouchFactor)) ∧
    (stateEx.mouseInCard = false →
      max 0 ((tickIter optsEx stateEx (0 + 1)).fadeSpeed) ≤
        max 0 ((tickIter optsEx stateEx 0).fadeSpeed) ∧
      max 0 ((tickIter optsEx stateEx (0 + 1)).opacityTouchFactor) ≤
        max 0 ((tickIter optsEx stateEx 0).opacityTouchFactor)) :=
  easing_bounds_and_clamped_monotonicity optsEx stateEx
    (by norm_num [optsEx]) (by norm_num [optsEx])
    (by norm_num [stateEx]) (by norm_num [stateEx])
    (by norm_num [stateEx]) (by norm_num [stateEx]) 0

/-- Claim C6 counterexample: with `fadeSpeedFactor = 3/4`,
    `ceil(1/fadeSpeedFactor) = 2`, yet starting from `waveFront = 0`
    under sustained hover the wave front is `0`, `3/4`, `3/2` over the
    first two ticks — it never equals `1` within 2 ticks. -/
theorem easing_convergence_exact_cex :
    (0 < optsEx.fadeSpeedFactor ∧ stateUp.mouseInCard = true ∧
      stateUp.fadeSpeed = 0 ∧ ⌈1 / optsEx.fadeSpeedFactor⌉₊ = 2) ∧
    (tickIter optsEx stateUp 0).fadeSpeed ≠ 1 ∧
    (tickIter optsEx stateUp 1).fadeSpeed ≠ 1 ∧
    (tickIter optsEx stateUp 2).fadeSpeed ≠ 1 := by
  norm_num [tickIter, animateCardEffect, easeStep, easeUp, optsEx,
    stateUp, Nat.ceil_eq_iff]

/-- Claim C6 as amended: with positive factors, starting from both
    scalars at `0` with hovering held true, each scalar reaches a value
    `≥ 1` within `ceil(1/factor)` ticks and equals exactly `1` within
    `ceil(1/factor) + 1` ticks; symmetrically, starting from `1` with
    hovering held false, each scalar reaches a value `≤ 0` within
    `ceil(1/factor)` ticks and equals exactly `0` within
    `ceil(1/factor) + 1` ticks.  (Exact arrival in `ceil(1/factor)`
    ticks holds only when `1/factor` is an integer.) -/
theorem easing_convergence_saturation (o : CardEffectOptions ℚ)
    (sUp sDn : EffectState ℚ)
    (hf : 0 < o.fadeSpeedFactor) (hc : 0 < o.cardSpeedFactor)
    (hu : sUp.mouseInCard = true) (hu1 : sUp.fadeSpeed = 0)
    (hu2 : sUp.opacityTouchFactor = 0)
    (hd : sDn.mouseInCard = false) (hd1 : sDn.fadeSpeed = 1)
    (hd2 : sDn.opacityTouchFactor = 1) :
    (1 ≤ (tickIter o sUp ⌈1 / o.fadeSpeedFactor⌉₊).fadeSpeed ∧
      (tickIter o sUp (⌈1 / o.fadeSpeedFactor⌉₊ + 1)).fadeSpeed = 1) ∧
    (1 ≤ (tickIter o sUp ⌈1 / o.cardSpeedFactor⌉₊).opacityTouchFactor ∧
      (tickIter o sUp
        (⌈1 / o.cardSpeedFactor⌉₊ + 1)).opacityTouchFactor = 1) ∧
    ((tickIter o sDn ⌈1 / o.fadeSpeedFactor⌉₊).fadeSpeed ≤ 0 ∧
      (tickIter o sDn (⌈1 / o.fadeSpeedFactor⌉₊ + 1)).fadeSpeed = 0) ∧
    ((tickIter o sDn ⌈1 / o.cardSpeedFactor⌉₊).opacityTouchFactor ≤ 0 ∧
      (tickIter o sDn
        (⌈1 / o.cardSpeedFactor⌉₊ + 1)).opacityTouchFactor = 0) := by
  refine ⟨?_, ?_, ?_, ?_⟩
  · rw [tickIter_fadeSpeed, tickIter_fadeSpeed, hu, hu1]
    exact easeIter_up_saturates hf
  · rw [tickIter_opacityTouchFactor, tickIter_opacityTouchFactor, hu, hu2]
    exact easeIter_up_saturates hc
  · rw [tickIter_fadeSpeed, tickIter_fadeSpeed, hd, hd1]
    exact easeIter_down_saturates hf
  · rw [tickIter_opacityTouchFactor, tickIter_opacityTouchFactor, hd, hd2]
    exact easeIter_down_saturates hc

/-- Witness for the amended C6 at `fadeSpeedFactor = cardSpeedFactor =
    3/4`: both scalars are `≥ 1` after `⌈4/3⌉ = 2` hovered ticks from
    `0` and exactly `1` after 3, and symmetrically downward. -/
theorem easing_convergence_saturation_witness :
    (1 ≤ (tickIter optsEx stateUp ⌈1 / optsEx.fadeSpeedFactor⌉₊).fadeSpeed ∧
      (tickIter optsEx stateUp
        (⌈1 / optsEx.fadeSpeedFactor⌉₊ + 1)).fadeSpeed = 1) ∧
    (1 ≤ (tickIter optsEx stateUp
        ⌈1 / optsEx.cardSpeedFactor⌉₊).opacityTouchFactor ∧
      (tickIter optsEx stateUp
        (⌈1 / optsEx.cardSpeedFactor⌉₊ + 1)).opacityTouchFactor = 1) ∧
    ((tickIter optsEx stateDn ⌈1 / optsEx.fadeSpeedFactor⌉₊).fadeSpeed ≤ 0 ∧
      (tickIter optsEx stateDn
        (⌈1 / optsEx.fadeSpeedFactor⌉₊ + 1)).fadeSpeed = 0) ∧
    ((tickIter optsEx stateDn
        ⌈1 / optsEx.cardSpeedFactor⌉₊).opacityTouchFactor ≤ 0 ∧
      (tickIter optsEx stateDn
        (⌈1 / optsEx.cardSpeedFactor⌉₊ + 1)).opacityTouchFactor = 0) :=
  easing_convergence_saturation optsEx stateUp stateDn
    (by norm_num [optsEx]) (by norm_num [optsEx])
    (by norm_num [stateUp]) (by norm_num [stateUp]) (by norm_num [stateUp])
    (by norm_num [stateDn]) (by norm_num [stateDn]) (by norm_num [stateDn])

/-- Claim C4: construction fails exactly when
    `maxPointFadeSpeed < minPointFadeSpeed` or
    `pointFadeSpeedFactor ≤ 0` (in particular a zero factor fails), and
    no squares are built on failure; a valid configuration succeeds and
    produces exactly `gridCells²` particles. -/
theorem construction_validation (o : CardEffectOptions α)
    (rndS : Nat → α) (rndC : Nat → Nat) :
    ((∃ l, mkCardEffect o rndS rndC = Except.ok l) ↔
      (o.minPointFadeSpeed ≤ o.maxPointFadeSpeed ∧
        0 < o.pointFadeSpeedFactor)) ∧
    (∀ l, mkCardEffect o rndS rndC = Except.ok l →
      l.length = o.gridCells * o.gridCells) := by
  by_cases h1 : o.maxPointFadeSpeed < o.minPointFadeSpeed
  · constructor
    · simp only [mkCardEffect, if_pos h1]
      constructor
      · rintro ⟨l, hl⟩
        exact absurd hl (by simp)
      · rintro ⟨hle, -⟩
        exact absurd h1 (not_lt.mpr hle)
    · intro l hl
      rw [mkCardEffect, if_pos h1] at hl
      exact absurd hl (by simp)
  · by_cases h2 : o.pointFadeSpeedFactor ≤ 0
    · constructor
      · simp only [mkCardEffect, if_neg h1, if_pos h2]
        constructor
        · rintro ⟨l, hl⟩
          exact absurd hl (by simp)
        · rintro ⟨-, hpos⟩
          exact absurd h2 (not_le.mpr hpos)
      · intro l hl
        rw [mkCardEffect, if_neg h1, if_pos h2] at hl
        exact absurd hl (by simp)
    · constructor
      · constructor
        · intro _
          exact ⟨not_lt.mp h1, not_le.mp h2⟩
        · intro _
          exact ⟨mkSquares o rndS rndC, by rw [mkCardEffect, if_neg h1, if_neg h2]⟩
      · intro l hl
        rw [mkCardEffect, if_neg h1, if_neg h2] at hl
        have : l = mkSquares o rndS rndC := by
          cases hl
          rfl
        rw [this]
        exact mkSquares_length o rndS rndC
  -- mkCardEffect's branches are what the two throws in the constructor become

/-- Witness for C4: the concrete valid 2×2 configuration builds exactly
    4 squares. -/
theorem construction_validation_witness :
    (mkSquares optsEx (fun _ => (0 : ℚ)) (fun _ => 0)).length =
      optsEx.gridCells * optsEx.gridCells :=
  (construction_validation optsEx (fun _ => 0) (fun _ => 0)).2
    (mkSquares optsEx (fun _ => 0) (fun _ => 0))
    (by norm_num [mkCardEffect, optsEx])

/-- Claim C5 counterexample: at a square with `distanceFromCenter = 0`,
    `maxPointDistance = 0` and a (transiently reachable) negative wave
    front `-1/2`, the code's gate leaves the positive speed untouched
    (in JavaScript `0 / 0` is `NaN` and the comparison is false),
    whereas treating the ratio as `0` would fire the gate and force the
    speed negative — so the ratio is not "treated as 0". -/
theorem zero_max_distance_guard_cex :
    (sqZero.distanceFromCenter = 0 ∧ 0 < sqZero.speed) ∧
    gateSquare (0 : ℚ) (-(1/2)) sqZero = sqZero ∧
    (specZeroGuardGate (-(1/2)) sqZero).speed = -1 ∧
    gateSquare (0 : ℚ) (-(1/2)) sqZero ≠
      specZeroGuardGate (-(1/2)) sqZero := by
  norm_num [gateSquare, specZeroGuardGate, jsDivGt, sqZero, cWhite]

/-- Claim C5 as amended: when `maxPointDistance = 0` (so every
    constructed particle has `distanceFromCenter = 0`), the wave-gate
    comparison evaluates false and the gate never fires, and the tick —
    a total function — raises no error; this coincides with treating
    the ratio as `0` whenever the wave front is non-negative, but when
    the wave front is transiently negative the gate still stays silent
    while the ratio-as-0 reading would fire it. -/
theorem zero_max_distance_gate_silent (w : α) (sq : Square α)
    (hd : sq.distanceFromCenter = 0) :
    gateSquare 0 w sq = sq ∧
    (0 ≤ w → gateSquare 0 w sq = specZeroGuardGate w sq) := by
  have hj : jsDivGt sq.distanceFromCenter 0 w = false := by
    simp [jsDivGt, hd]
  have hng : gateSquare 0 w sq = sq := by
    rw [gateSquare, if_neg]
    rw [hj]
    simp
  refine ⟨hng, fun hw => ?_⟩
  rw [hng, specZeroGuardGate, if_neg]
  rintro ⟨hlt, -⟩
  exact absurd hlt (not_lt.mpr hw)

/-- Witness for the amended C5 at the concrete center square and a zero
    wave front. -/
theorem zero_max_distance_gate_silent_witness :
    gateSquare (0 : ℚ) 0 sqZero = sqZero ∧
    (0 ≤ (0 : ℚ) → gateSquare (0 : ℚ) 0 sqZero = specZeroGuardGate 0 sqZero) :=
  zero_max_distance_gate_silent 0 sqZero (by norm_num [sqZero])

/-- Claim C7: the layout places the square of row `r`, column `c` (in
    row-major order) at
    `(c·(cellSize+gapSize) + (cellSize−squareSize)/2,
      r·(cellSize+gapSize) + (cellSize−squareSize)/2)`, with its
    distance from the center the Euclidean distance from that corner to
    `(side/2, side/2)`; and in the scenario `gridCells=2, cellSize=10,
    gapSize=0, squareSize=10` the side is 20, the 4 squares sit at
    `(0,0),(10,0),(0,10),(10,10)`, the code's running maximum of the
    square-root distances is `√200`, and the square at `(10,10)` has
    distance `0`. -/
theorem grid_geometry :
    (∀ (o : CardEffectOptions ℚ) (rndS : Nat → ℚ) (rndC : Nat → Nat)
        (r c : Nat), r < o.gridCells → c < o.gridCells →
      (mkSquares o rndS rndC)[r * o.gridCells + c]? =
          some (mkLayoutSquare o rndS rndC r c) ∧
        (mkLayoutSquare o rndS rndC r c).x =
          (c : ℚ) * (o.cellSize + o.gapSize) +
            (o.cellSize - o.squareSize) / 2 ∧
        (mkLayoutSquare o rndS rndC r c).y =
          (r : ℚ) * (o.cellSize + o.gapSize) +
            (o.cellSize - o.squareSize) / 2 ∧
        (mkLayoutSquare o rndS rndC r c).distSq =
          ((mkLayoutSquare o rndS rndC r c).x - canvasSide o / 2) ^ 2 +
            ((mkLayoutSquare o rndS rndC r c).y - canvasSide o / 2) ^ 2) ∧
    canvasSide optsEx = 20 ∧
    (mkSquares optsEx (fun _ => 0) (fun _ => 0)).map
        (fun sq => (sq.x, sq.y)) = [(0, 0), (10, 0), (0, 10), (10, 10)] ∧
    (mkSquares optsEx (fun _ => 0) (fun _ => 0)).map LayoutSquare.distSq =
      [200, 100, 100, 0] ∧
    ((mkSquares optsEx (fun _ => 0) (fun _ => 0)).map
        (fun sq => Real.sqrt (sq.distSq : ℝ))).foldl
        (fun m d => if m < d then d else m) 0 = Real.sqrt 200 ∧
    ((mkSquares optsEx (fun _ => 0) (fun _ => 0))[3]?).map
        (fun sq => Real.sqrt (sq.distSq : ℝ)) = some 0 := by
  have hq : (mkSquares optsEx (fun _ => 0) (fun _ => 0)).map
      LayoutSquare.distSq = [200, 100, 100, 0] := by
    norm_num [mkSquares, mkLayoutSquare, squareXPos, squareYPos,
      distSqFromCenter, canvasSide, optsEx, List.range_succ]
  refine ⟨?_, ?_, ?_, hq, ?_, ?_⟩
  · intro o rndS rndC r c hr hc
    refine ⟨?_, rfl, rfl, rfl⟩
    rw [mkSquares]
    exact range_flatMap_getElem o.gridCells o.gridCells r c _ hr hc
  · norm_num [canvasSide, optsEx]
  · norm_num [mkSquares, mkLayoutSquare, squareXPos, squareYPos,
      optsEx, List.range_succ]
  · have hmap : (mkSquares optsEx (fun _ => 0) (fun _ => 0)).map
        (fun sq => Real.sqrt (sq.distSq : ℝ)) =
        [Real.sqrt 200, Real.sqrt 100, Real.sqrt 100, Real.sqrt 0] := by
      rw [show (fun sq : LayoutSquare ℚ => Real.sqrt (sq.distSq : ℝ)) =
            ((fun q : ℚ => Real.sqrt (q : ℝ)) ∘ LayoutSquare.distSq)
          from rfl, ← List.map_map, hq]
      norm_num
    rw [hmap]
    have h1 : (0 : ℝ) < Real.sqrt 200 := Real.sqrt_pos.mpr (by norm_num)
    have h2 : ¬(Real.sqrt 200 < Real.sqrt 100) :=
      not_lt.mpr (Real.sqrt_le_sqrt (by norm_num))
    have h3 : ¬(Real.sqrt 200 < Real.sqrt 0) :=
      not_lt.mpr (Real.sqrt_le_sqrt (by norm_num))
    simp only [List.foldl_cons, List.foldl_nil, if_pos h1, if_neg h2,
      if_neg h3]
  · have h3 : (mkSquares optsEx (fun _ => 0) (fun _ => 0))[3]?.map
        LayoutSquare.distSq = some 0 := by
      norm_num [mkSquares, mkLayoutSquare, squareXPos, squareYPos,
        distSqFromCenter, canvasSide, optsEx, List.range_succ]
    cases hcase : (mkSquares optsEx (fun _ => 0) (fun _ => 0))[3]? with
    | none => rw [hcase] at h3; exact absurd h3 (by simp)
    | some sq =>
      rw [hcase] at h3
      have hdz : sq.distSq = 0 := by
        simpa using h3
      simp [hdz]

/-- Witness for C7: the universal layout formula instantiated at the
    concrete 2×2 configuration, row 1, column 1. -/
theorem grid_geometry_witness :
    (mkSquares optsEx (fun _ => (0 : ℚ))
        (fun _ => 0))[1 * optsEx.gridCells + 1]? =
      some (mkLayoutSquare optsEx (fun _ => 0) (fun _ => 0) 1 1) ∧
    (mkLayoutSquare optsEx (fun _ => 0) (fun _ => 0) 1 1).x =
      (1 : ℚ) * (optsEx.cellSize + optsEx.gapSize) +
        (optsEx.cellSize - optsEx.squareSize) / 2 ∧
    (mkLayoutSquare optsEx (fun _ => 0) (fun _ => 0) 1 1).y =
      (1 : ℚ) * (optsEx.cellSize + optsEx.gapSize) +
        (optsEx.cellSize - optsEx.squareSize) / 2 ∧
    (mkLayoutSquare optsEx (fun _ => 0) (fun _ => 0) 1 1).distSq =
      ((mkLayoutSquare optsEx (fun _ => 0) (fun _ => 0) 1 1).x -
          canvasSide optsEx / 2) ^ 2 +
        ((mkLayoutSquare optsEx (fun _ => 0) (fun _ => 0) 1 1).y -
          canvasSide optsEx / 2) ^ 2 := by
  have h := grid_geometry.1 optsEx (fun _ => 0) (fun _ => 0) 1 1
    (by norm_num [optsEx]) (by norm_num [optsEx])
  simpa using h

/-- Claim C8: `drawGrid()` mutates no state, so repeated calls with no
    intervening tick leave the state fixed and produce the identical
    draw-call sequence each time. -/
theorem drawGrid_idempotent (o : CardEffectOptions α) (s : EffectState α)
    (n : Nat) :
    (drawGrid o s).1 = s ∧ drawGridIter o s n = drawGrid o s := by
  refine ⟨rfl, ?_⟩
  induction n with
  | zero => rfl
  | succ k ih => rw [drawGridIter, ih]; rfl

/-- Claim C9: one tick changes no particle's `x`, `y`, `color` or
    `distanceFromCenter`, adds and removes no particle, and preserves
    the absolute value of every particle's speed. -/
theorem tick_frame_condition (o : CardEffectOptions α) (s : EffectState α) :
    (animateCardEffect o s).1.squares.length = s.squares.length ∧
    ∀ i : Nat,
      ((animateCardEffect o s).1.squares[i]?).map Square.x =
          (s.squares[i]?).map Square.x ∧
      ((animateCardEffect o s).1.squares[i]?).map Square.y =
          (s.squares[i]?).map Square.y ∧
      ((animateCardEffect o s).1.squares[i]?).map Square.color =
          (s.squares[i]?).map Square.color ∧
      ((animateCardEffect o s).1.squares[i]?).map Square.distanceFromCenter =
          (s.squares[i]?).map Square.distanceFromCenter ∧
      ((animateCardEffect o s).1.squares[i]?).map (fun sq => |sq.speed|) =
          (s.squares[i]?).map (fun sq => |sq.speed|) := by
  constructor
  · simp [animateCardEffect]
  · intro i
    simp only [animateCardEffect, List.getElem?_map]
    cases s.squares[i]? with
    | none => simp
    | some sq =>
      obtain ⟨hx, hy, hc, hd, hs⟩ := stepSquare_parts s.maxPointDistance
        (easeStep s.mouseInCard o.fadeSpeedFactor s.fadeSpeed)
        o.pointFadeSpeedFactor sq
      simp [Option.map_some, hx, hy, hc, hd, hs]

/-- Claim C10: with a positive `pointFadeSpeedFactor`, a positive
    `maxPointDistance` and a pre-tick opacity in `[0, 1]`, a particle
    whose distance ratio strictly exceeds the wave front in effect at
    the gate check never brightens during that tick, whatever the prior
    sign of its speed. -/
theorem outside_wave_never_brightens (m w f : α) (sq : Square α)
    (hf : 0 < f) (hm : 0 < m) (ho0 : 0 ≤ sq.opacity) (ho1 : sq.opacity ≤ 1)
    (hd : w < sq.distanceFromCenter / m) :
    (stepSquare m w f sq).opacity ≤ sq.opacity := by
  have hj : jsDivGt sq.distanceFromCenter m w = true :=
    (jsDivGt_of_ne _ _ (ne_of_gt hm)).mpr hd
  have hs : (gateSquare m w sq).speed ≤ 0 := gateSquare_speed_nonpos m w sq hj
  have hop : (gateSquare m w sq).opacity = sq.opacity :=
    (gateSquare_parts m w sq).2.2.1
  have hin : (integrateSquare f (gateSquare m w sq)).opacity ≤ sq.opacity := by
    rw [(integrateSquare_parts f _).2.2.2.2.2, hop]
    have : (gateSquare m w sq).speed * f ≤ 0 :=
      mul_nonpos_iff.mpr (Or.inr ⟨hs, hf.le⟩)
    linarith
  exact bounceSquare_opacity_le _ _ ho0 hin ho1

/-- Witness for C10 at a concrete particle: factor 1/100, max distance
    1, opacity 1/2, distance ratio 1 above the wave front 1/2. -/
theorem outside_wave_never_brightens_witness :
    (stepSquare (1 : ℚ) (1/2) (1/100) sqEx).opacity ≤ sqEx.opacity :=
  outside_wave_never_brightens 1 (1/2) (1/100) sqEx (by norm_num)
    (by norm_num) (by norm_num [sqEx]) (by norm_num [sqEx])
    (by norm_num [sqEx])

end Claims

end PixelCards
